import Mathlib

/-!
Verification development for the lazorkit-passkey-demo repository.

The repository is a thin React UI over an external wallet SDK.  We embed
the two handlers that own logic — `handleTransfer` in
`src/components/TransferForm.tsx` and `handleDisconnect` in
`src/components/ConnectButton.tsx` — together with the static
configuration module `src/lib/config.ts`.

External code (the `@solana/web3.js` `PublicKey` constructor and the SDK
`sendTransaction` function) is modelled as oracle parameters: the
`PublicKey` constructor either returns a key or throws with a message,
and `sendTransaction` either resolves with a signature string or rejects
with a message.  The handler itself is embedded as a pure function that
produces the exact sequence of UI-state assignments and SDK calls the
source performs, in source order; the final component state is the fold
of that event sequence over the pre-submission state.
-/

namespace LazorkitDemo

/-- A Solana public key, as produced by the web3.js `PublicKey`
constructor.  Only its identity matters to this repository. -/
structure Pubkey where
  key : String
deriving DecidableEq, Repr

/-- Result of an external (JavaScript) call: it either returns a value or
throws an `Error` carrying a message string. -/
inductive JSResult (α : Type) where
  | ok (v : α)
  | err (msg : String)
deriving DecidableEq, Repr

/-- A JavaScript number: either NaN or a finite value (represented
exactly as a rational; the demo only multiplies a parsed amount by a
constant, so no rounding behaviour is involved in any claim). -/
inductive JSNum where
  | nan
  | num (q : ℚ)
deriving DecidableEq, Repr

/-- JavaScript multiplication: NaN is absorbing. -/
def JSNum.mul : JSNum → JSNum → JSNum
  | JSNum.nan, _ => JSNum.nan
  | _, JSNum.nan => JSNum.nan
  | JSNum.num a, JSNum.num b => JSNum.num (a * b)

/-- `LAMPORTS_PER_SOL` from `@solana/web3.js`. -/
def LAMPORTS_PER_SOL : ℚ := 1000000000

/-- Modelled from JavaScript `parseFloat` semantics: an optional sign
followed by decimal digits and an optional fraction part; if no digit can
be read at the front the result is NaN.  (Exponents and leading
whitespace are not modelled; no claim depends on them.) -/
def jsParseFloat (s : String) : JSNum :=
  let cs := s.toList
  let signAndRest : ℚ × List Char :=
    match cs with
    | '-' :: rest => (-1, rest)
    | '+' :: rest => (1, rest)
    | rest => (1, rest)
  let sign := signAndRest.1
  let rest := signAndRest.2
  let intPart := rest.takeWhile Char.isDigit
  let afterInt := rest.dropWhile Char.isDigit
  let fracPart : List Char :=
    match afterInt with
    | '.' :: tl => tl.takeWhile Char.isDigit
    | _ => []
  if intPart.isEmpty ∧ fracPart.isEmpty then
    JSNum.nan
  else
    let iv : ℚ := intPart.foldl (fun acc c => acc * 10 + ((c.toNat - 48 : ℕ) : ℚ)) 0
    let fv : ℚ := fracPart.foldr (fun c acc => (acc + ((c.toNat - 48 : ℕ) : ℚ)) / 10) 0
    JSNum.num (sign * (iv + fv))

/-- The record passed to `SystemProgram.transfer` and the resulting
instruction (`src/components/TransferForm.tsx`, lines 31-36). -/
structure TransferInstruction where
  fromPubkey : Pubkey
  toPubkey : Pubkey
  lamports : JSNum
deriving DecidableEq, Repr

/-- `SystemProgram.transfer` builds a value-transfer instruction from its
parameter record. -/
def SystemProgram.transfer (p : TransferInstruction) : TransferInstruction := p

/-- A transaction, built by `new Transaction().add(...)`: its list of
instructions. -/
structure Transaction where
  instructions : List TransferInstruction
deriving DecidableEq, Repr

/-- The arguments the component passes at its single SDK call site
`sendTransaction(transaction, connection)`: the transaction, the
connection, and the (absent) per-call options — the call site passes no
third argument, so no fee-token option travels with the call. -/
structure SendTransactionArgs where
  transaction : Transaction
  connection : Unit
  feeToken : Option String
deriving DecidableEq, Repr

/-- The ephemeral UI state of `TransferForm` (the four `useState` hooks). -/
structure TransferFormState where
  recipient : String
  amount : String
  status : String
  loading : Bool
deriving DecidableEq, Repr

/-- One observable step of `handleTransfer`: a state-setter call or the
SDK `sendTransaction` invocation, in source order. -/
inductive Event where
  | setRecipient (v : String)
  | setAmount (v : String)
  | setStatus (v : String)
  | setLoading (v : Bool)
  | sdkSend (args : SendTransactionArgs)
deriving DecidableEq, Repr

/-- Effect of one event on the component state; the SDK call itself does
not change UI state. -/
def applyEvent (st : TransferFormState) : Event → TransferFormState
  | Event.setRecipient v => { st with recipient := v }
  | Event.setAmount v => { st with amount := v }
  | Event.setStatus v => { st with status := v }
  | Event.setLoading v => { st with loading := v }
  | Event.sdkSend _ => st

/-- The component state after a sequence of events. -/
def runEvents (st : TransferFormState) (es : List Event) : TransferFormState :=
  es.foldl applyEvent st

/-- The arguments `handleTransfer` hands to `sendTransaction`: the
transaction holding the one `SystemProgram.transfer` instruction built
from the wallet key, the parsed recipient and `parseFloat(amount) *
LAMPORTS_PER_SOL`, together with the connection; the call site passes no
options argument, hence no fee-token option. -/
def mkSendArgs (fromPk toPk : Pubkey) (amount : String) : SendTransactionArgs :=
  { transaction :=
      { instructions := [SystemProgram.transfer
          { fromPubkey := fromPk, toPubkey := toPk,
            lamports := JSNum.mul (jsParseFloat amount) (JSNum.num LAMPORTS_PER_SOL) }] }
    connection := ()
    feeToken := none }

/-- `handleTransfer` from `src/components/TransferForm.tsx`, embedded as
the event sequence it performs.  `parsePubkey` stands for the web3.js
`PublicKey` constructor applied to the recipient field (it throws on an
invalid address); `sendTransaction` stands for the SDK call.  The guard,
the try block, the catch block and the finally block are reproduced in
source order. -/
def handleTransfer (publicKey : Option Pubkey) (connection : Bool)
    (parsePubkey : String → Except String Pubkey)
    (sendTransaction : SendTransactionArgs → JSResult String)
    (recipient amount : String) : List Event :=
  match publicKey, connection with
  | none, _ => [Event.setStatus ("Please connect your wallet first")]
  | some _, false => [Event.setStatus ("Please connect your wallet first")]
  | some fromPk, true =>
      [Event.setLoading true, Event.setStatus ("Creating transaction...")] ++
      (match parsePubkey recipient with
       | Except.error msg =>
           -- the PublicKey constructor threw; control jumps to the catch block
           [Event.setStatus ("Error: " ++ msg)]
       | Except.ok recipientPubkey =>
           [Event.setStatus ("Sending transaction..."),
            Event.sdkSend (mkSendArgs fromPk recipientPubkey amount)] ++
             (match sendTransaction (mkSendArgs fromPk recipientPubkey amount) with
              | JSResult.ok signature =>
                  [Event.setStatus ("Success! Transaction: " ++ signature),
                   Event.setRecipient (""), Event.setAmount ("")]
              | JSResult.err msg =>
                  -- the awaited promise rejected; control jumps to the catch block
                  [Event.setStatus ("Error: " ++ msg)])) ++
      [Event.setLoading false]

/-- Whether an event is the SDK `sendTransaction` invocation. -/
def isSendEvent : Event → Bool
  | Event.sdkSend _ => true
  | _ => false

/-- The disabled condition of the Send Transfer button
(`disabled=loading or empty recipient or empty amount`). -/
def buttonDisabled (st : TransferFormState) : Bool :=
  st.loading || st.recipient == "" || st.amount == ""

/-- What `TransferForm` renders: either the disconnected placeholder
paragraph (no inputs, no button) or the form with its two inputs, the
button and the optional status box. -/
inductive View where
  | placeholder (text : String)
  | form (recipientInput amountInput : String) (buttonIsDisabled : Bool)
      (buttonLabel : String) (statusBox : Option String)
deriving DecidableEq, Repr

/-- The render function of `TransferForm`: with no `publicKey` it returns
only the placeholder paragraph; otherwise the form. -/
def renderTransferForm (publicKey : Option Pubkey) (st : TransferFormState) : View :=
  match publicKey with
  | none => View.placeholder ("Connect your wallet to send transfers")
  | some _ =>
      View.form st.recipient st.amount (buttonDisabled st)
        (if st.loading then "Processing..." else "Send Transfer")
        (if st.status == "" then none else some st.status)

/-- `handleDisconnect` from `src/components/ConnectButton.tsx`: calls the
SDK `disconnect`, clears the error state on success, and on an exception
only logs (the error state is left unchanged).  Input is the outcome of
the `disconnect` call and the current error state; output is the error
state afterwards. -/
def handleDisconnect (disconnect : JSResult Unit) (error : Option String) : Option String :=
  match disconnect with
  | JSResult.ok _ => none
  | JSResult.err _ => error

/-- The environment variables read by `src/lib/config.ts`. -/
structure Env where
  NEXT_PUBLIC_RPC_URL : Option String
  NEXT_PUBLIC_PORTAL_URL : Option String
  NEXT_PUBLIC_PAYMASTER_URL : Option String
deriving DecidableEq, Repr

/-- Nested paymaster configuration record. -/
structure PaymasterConfig where
  paymasterUrl : String
deriving DecidableEq, Repr

/-- The shape of `LAZORKIT_CONFIG`. -/
structure LazorkitConfig where
  rpcUrl : String
  portalUrl : String
  paymasterConfig : PaymasterConfig
deriving DecidableEq, Repr

/-- JavaScript `x or-else d` on an optional environment string: an unset
variable is `undefined` (falsy) and the empty string is also falsy, so
both fall back to the default literal. -/
def jsOr (v : Option String) (d : String) : String :=
  match v with
  | none => d
  | some s => if s = "" then d else s

/-- `LAZORKIT_CONFIG` from `src/lib/config.ts`, as a function of the
environment. -/
def LAZORKIT_CONFIG (env : Env) : LazorkitConfig :=
  { rpcUrl := jsOr env.NEXT_PUBLIC_RPC_URL ("https://api.devnet.solana.com")
    portalUrl := jsOr env.NEXT_PUBLIC_PORTAL_URL ("https://portal.lazor.sh")
    paymasterConfig :=
      { paymasterUrl := jsOr env.NEXT_PUBLIC_PAYMASTER_URL ("https://kora.devnet.lazorkit.com") } }

/-! ### Case characterizations of `handleTransfer` (shared helper lemmas) -/

/-- With no wallet key the handler only sets the status and returns. -/
theorem handleTransfer_noWallet (connection : Bool)
    (pp : String → Except String Pubkey) (send : SendTransactionArgs → JSResult String)
    (r a : String) :
    handleTransfer none connection pp send r a =
      [Event.setStatus ("Please connect your wallet first")] := rfl

/-- With no connection the handler only sets the status and returns. -/
theorem handleTransfer_noConnection (fromPk : Pubkey)
    (pp : String → Except String Pubkey) (send : SendTransactionArgs → JSResult String)
    (r a : String) :
    handleTransfer (some fromPk) false pp send r a =
      [Event.setStatus ("Please connect your wallet first")] := rfl

/-- When the `PublicKey` constructor throws, the catch and finally blocks
run and the SDK is never called. -/
theorem handleTransfer_invalidRecipient (fromPk : Pubkey)
    (pp : String → Except String Pubkey) (send : SendTransactionArgs → JSResult String)
    (r a msg : String) (h : pp r = Except.error msg) :
    handleTransfer (some fromPk) true pp send r a =
      [Event.setLoading true, Event.setStatus ("Creating transaction..."),
       Event.setStatus ("Error: " ++ msg), Event.setLoading false] := by
  simp [handleTransfer, h]

/-- When the recipient parses and the SDK call resolves, the success
status is set and the two fields are reset. -/
theorem handleTransfer_sendOk (fromPk toPk : Pubkey)
    (pp : String → Except String Pubkey) (send : SendTransactionArgs → JSResult String)
    (r a sig : String) (hp : pp r = Except.ok toPk)
    (hs : send (mkSendArgs fromPk toPk a) = JSResult.ok sig) :
    handleTransfer (some fromPk) true pp send r a =
      [Event.setLoading true, Event.setStatus ("Creating transaction..."),
       Event.setStatus ("Sending transaction..."), Event.sdkSend (mkSendArgs fromPk toPk a),
       Event.setStatus ("Success! Transaction: " ++ sig),
       Event.setRecipient (""), Event.setAmount (""), Event.setLoading false] := by
  simp [handleTransfer, hp, hs]

/-- When the recipient parses and the SDK call rejects, the error status
is set after the SDK call and the fields are not touched. -/
theorem handleTransfer_sendErr (fromPk toPk : Pubkey)
    (pp : String → Except String Pubkey) (send : SendTransactionArgs → JSResult String)
    (r a msg : String) (hp : pp r = Except.ok toPk)
    (hs : send (mkSendArgs fromPk toPk a) = JSResult.err msg) :
    handleTransfer (some fromPk) true pp send r a =
      [Event.setLoading true, Event.setStatus ("Creating transaction..."),
       Event.setStatus ("Sending transaction..."), Event.sdkSend (mkSendArgs fromPk toPk a),
       Event.setStatus ("Error: " ++ msg), Event.setLoading false] := by
  simp [handleTransfer, hp, hs]

/-- Every SDK call in a handler run uses the arguments built from the
wallet key, the parsed recipient and the amount. -/
theorem handleTransfer_send_args (publicKey : Option Pubkey) (connection : Bool)
    (pp : String → Except String Pubkey) (send : SendTransactionArgs → JSResult String)
    (r a : String) (args : SendTransactionArgs)
    (h : Event.sdkSend args ∈ handleTransfer publicKey connection pp send r a) :
    ∃ fromPk toPk, publicKey = some fromPk ∧ pp r = Except.ok toPk ∧
      args = mkSendArgs fromPk toPk a := by
  cases publicKey with
  | none => simp [handleTransfer_noWallet] at h
  | some fromPk =>
    cases connection with
    | false => simp [handleTransfer_noConnection] at h
    | true =>
      cases hp : pp r with
      | error msg => simp [handleTransfer_invalidRecipient fromPk pp send r a msg hp] at h
      | ok toPk =>
        refine ⟨fromPk, toPk, rfl, rfl, ?_⟩
        cases hs : send (mkSendArgs fromPk toPk a) with
        | ok sig =>
          simp [handleTransfer_sendOk fromPk toPk pp send r a sig hp hs] at h
          exact h
        | err msg =>
          simp [handleTransfer_sendErr fromPk toPk pp send r a msg hp hs] at h
          exact h

/-! ### Claims -/

/-- C1, as stated, is false: the call site is
`sendTransaction(transaction, connection)` with no options argument, so a
run that reaches the SDK call passes no fee-token option.  This exhibits
a concrete run whose SDK call carries `feeToken = none`, refuting the
universally quantified claim. -/
theorem C1_counterexample :
    ¬ (∀ (publicKey : Option Pubkey) (connection : Bool)
        (pp : String → Except String Pubkey) (send : SendTransactionArgs → JSResult String)
        (r a : String) (args : SendTransactionArgs),
        Event.sdkSend args ∈ handleTransfer publicKey connection pp send r a →
          args.feeToken.isSome = true) := by
  intro hclaim
  have hmem : Event.sdkSend (mkSendArgs (Pubkey.mk "w") (Pubkey.mk "t") ("abc")) ∈
      handleTransfer (some (Pubkey.mk "w")) true (fun _ => Except.ok (Pubkey.mk "t"))
        (fun _ => JSResult.ok ("sig")) ("dest") ("abc") := by
    rw [handleTransfer_sendOk (Pubkey.mk "w") (Pubkey.mk "t") _ _ ("dest") ("abc") ("sig")
      rfl rfl]
    simp
  have hfee := hclaim _ _ _ _ _ _ _ hmem
  simp [mkSendArgs] at hfee

/-- C1 (amended): every invocation of handleTransfer that reaches the SDK
call passes the SystemProgram value-transfer transaction built from the
recipient and amount fields, together with the connection, and NO
fee-token option. -/
theorem C1_amended_no_feeToken (publicKey : Option Pubkey) (connection : Bool)
    (pp : String → Except String Pubkey) (send : SendTransactionArgs → JSResult String)
    (r a : String) (args : SendTransactionArgs)
    (h : Event.sdkSend args ∈ handleTransfer publicKey connection pp send r a) :
    args.feeToken = none ∧
    ∃ fromPk toPk, publicKey = some fromPk ∧ pp r = Except.ok toPk ∧
      args.transaction = { instructions := [SystemProgram.transfer
        { fromPubkey := fromPk, toPubkey := toPk,
          lamports := JSNum.mul (jsParseFloat a) (JSNum.num LAMPORTS_PER_SOL) }] } := by
  obtain ⟨fromPk, toPk, hpk, hp, rfl⟩ := handleTransfer_send_args _ _ _ _ _ _ _ h
  exact ⟨rfl, fromPk, toPk, hpk, hp, rfl⟩

/-- C1 witness: the amended theorem applied to a concrete run that
reaches the SDK call. -/
theorem C1_witness :
    (mkSendArgs (Pubkey.mk "wallet") (Pubkey.mk "target") ("abc")).feeToken = none :=
  (C1_amended_no_feeToken (some (Pubkey.mk "wallet")) true
    (fun _ => Except.ok (Pubkey.mk "target")) (fun _ => JSResult.ok ("sig"))
    ("dest") ("abc") (mkSendArgs (Pubkey.mk "wallet") (Pubkey.mk "target") ("abc"))
    (by
      rw [handleTransfer_sendOk (Pubkey.mk "wallet") (Pubkey.mk "target") _ _ ("dest") ("abc")
        ("sig") rfl rfl]
      simp)).1

/-- C2: with a connected wallet, an invalid recipient makes the PublicKey
constructor throw before the SDK call; the exception is caught, the SDK
send function is never invoked, and the final status is the string
"Error: " followed by the message of the exception. -/
theorem C2_invalid_recipient (fromPk : Pubkey)
    (pp : String → Except String Pubkey) (send : SendTransactionArgs → JSResult String)
    (r a msg : String) (st : TransferFormState) (h : pp r = Except.error msg) :
    (∀ args, Event.sdkSend args ∉ handleTransfer (some fromPk) true pp send r a) ∧
    (runEvents st (handleTransfer (some fromPk) true pp send r a)).status = "Error: " ++ msg := by
  rw [handleTransfer_invalidRecipient fromPk pp send r a msg h]
  refine ⟨fun args hmem => by simp at hmem, rfl⟩

/-- C2 witness: a concrete invalid recipient with a connected wallet. -/
theorem C2_witness :
    (∀ args, Event.sdkSend args ∉ handleTransfer (some (Pubkey.mk "w")) true
        (fun _ => Except.error ("Invalid public key input"))
        (fun _ => JSResult.ok ("sig")) ("notAnAddress") ("1")) ∧
    (runEvents { recipient := "notAnAddress", amount := "1", status := "", loading := false }
        (handleTransfer (some (Pubkey.mk "w")) true
          (fun _ => Except.error ("Invalid public key input"))
          (fun _ => JSResult.ok ("sig")) ("notAnAddress") ("1"))).status =
      "Error: " ++ "Invalid public key input" :=
  C2_invalid_recipient (Pubkey.mk "w") (fun _ => Except.error ("Invalid public key input"))
    (fun _ => JSResult.ok ("sig")) ("notAnAddress") ("1") ("Invalid public key input")
    { recipient := "notAnAddress", amount := "1", status := "", loading := false } rfl

/-- C3: when the awaited sendTransaction call resolves with a signature
string s, the handler leaves the status field equal to the string
"Success! Transaction: " followed by s. -/
theorem C3_success_status (fromPk toPk : Pubkey)
    (pp : String → Except String Pubkey) (send : SendTransactionArgs → JSResult String)
    (r a s : String) (st : TransferFormState)
    (hp : pp r = Except.ok toPk)
    (hs : send (mkSendArgs fromPk toPk a) = JSResult.ok s) :
    (runEvents st (handleTransfer (some fromPk) true pp send r a)).status =
      "Success! Transaction: " ++ s := by
  rw [handleTransfer_sendOk fromPk toPk pp send r a s hp hs]
  rfl

/-- C3 witness: a concrete resolving run. -/
theorem C3_witness :
    (runEvents { recipient := "dest", amount := "2", status := "", loading := false }
        (handleTransfer (some (Pubkey.mk "w")) true (fun _ => Except.ok (Pubkey.mk "t"))
          (fun _ => JSResult.ok ("5VERYrealSig")) ("dest") ("2"))).status =
      "Success! Transaction: " ++ "5VERYrealSig" :=
  C3_success_status (Pubkey.mk "w") (Pubkey.mk "t") (fun _ => Except.ok (Pubkey.mk "t"))
    (fun _ => JSResult.ok ("5VERYrealSig")) ("dest") ("2") ("5VERYrealSig")
    { recipient := "dest", amount := "2", status := "", loading := false } rfl rfl

/-- C4: whenever publicKey is absent the component renders only the
placeholder paragraph — a view with no recipient input, no amount input
and no send button — and whenever publicKey is present it renders the
form view. -/
theorem C4_disconnected_hides_form (st : TransferFormState) :
    renderTransferForm none st = View.placeholder ("Connect your wallet to send transfers") ∧
    ∀ pk : Pubkey, ∃ rIn aIn d lbl box,
      renderTransferForm (some pk) st = View.form rIn aIn d lbl box :=
  ⟨rfl, fun _ => ⟨st.recipient, st.amount, buttonDisabled st,
    (if st.loading then "Processing..." else "Send Transfer"),
    (if st.status == "" then none else some st.status), rfl⟩⟩

/-- C5, as stated, is false: on a failed submission the fields survive.
Concrete run: connected wallet, valid recipient, SDK call rejects — the
recipient field still holds its old non-empty value afterwards. -/
theorem C5_counterexample :
    (runEvents { recipient := "dest", amount := "1", status := "", loading := false }
        (handleTransfer (some (Pubkey.mk "w")) true (fun _ => Except.ok (Pubkey.mk "t"))
          (fun _ => JSResult.err ("Paymaster rejected")) ("dest") ("1"))).recipient = "dest" ∧
    "dest" ≠ "" := by
  constructor
  · rw [handleTransfer_sendErr (Pubkey.mk "w") (Pubkey.mk "t") _ _ ("dest") ("1")
      ("Paymaster rejected") rfl rfl]
    rfl
  · decide

/-- C5 (amended): the recipient and amount fields are reset to the empty
string only on the success path; on a failed submission — whether the SDK
call rejects or the PublicKey constructor throws before the call — both
fields keep their pre-submission values. -/
theorem C5_amended_reset_only_on_success (fromPk : Pubkey)
    (pp : String → Except String Pubkey) (send : SendTransactionArgs → JSResult String)
    (r a : String) (st : TransferFormState) :
    (∀ toPk sig, pp r = Except.ok toPk → send (mkSendArgs fromPk toPk a) = JSResult.ok sig →
      (runEvents st (handleTransfer (some fromPk) true pp send r a)).recipient = "" ∧
      (runEvents st (handleTransfer (some fromPk) true pp send r a)).amount = "") ∧
    (∀ toPk msg, pp r = Except.ok toPk → send (mkSendArgs fromPk toPk a) = JSResult.err msg →
      (runEvents st (handleTransfer (some fromPk) true pp send r a)).recipient = st.recipient ∧
      (runEvents st (handleTransfer (some fromPk) true pp send r a)).amount = st.amount) ∧
    (∀ msg, pp r = Except.error msg →
      (runEvents st (handleTransfer (some fromPk) true pp send r a)).recipient = st.recipient ∧
      (runEvents st (handleTransfer (some fromPk) true pp send r a)).amount = st.amount) := by
  refine ⟨?_, ?_, ?_⟩
  · intro toPk sig hp hs
    rw [handleTransfer_sendOk fromPk toPk pp send r a sig hp hs]
    exact ⟨rfl, rfl⟩
  · intro toPk msg hp hs
    rw [handleTransfer_sendErr fromPk toPk pp send r a msg hp hs]
    exact ⟨rfl, rfl⟩
  · intro msg hmsg
    rw [handleTransfer_invalidRecipient fromPk pp send r a msg hmsg]
    exact ⟨rfl, rfl⟩

/-- C5 witness: on a concrete successful run both fields end empty. -/
theorem C5_witness :
    (runEvents { recipient := "dest", amount := "abc", status := "", loading := false }
        (handleTransfer (some (Pubkey.mk "w")) true (fun _ => Except.ok (Pubkey.mk "t"))
          (fun _ => JSResult.ok ("sig")) ("dest") ("abc"))).recipient = "" ∧
    (runEvents { recipient := "dest", amount := "abc", status := "", loading := false }
        (handleTransfer (some (Pubkey.mk "w")) true (fun _ => Except.ok (Pubkey.mk "t"))
          (fun _ => JSResult.ok ("sig")) ("dest") ("abc"))).amount = "" :=
  (C5_amended_reset_only_on_success (Pubkey.mk "w")
    (fun _ => Except.ok (Pubkey.mk "t")) (fun _ => JSResult.ok ("sig")) ("dest") ("abc")
    { recipient := "dest", amount := "abc", status := "", loading := false }).1
    (Pubkey.mk "t") ("sig") rfl rfl

/-- Behaviour of the JavaScript or-else on a set, non-empty variable. -/
theorem jsOr_of_ne (v d : String) (h : v ≠ "") : jsOr (some v) d = v := by
  simp [jsOr, h]

/-- C6, as stated, is false: the code uses the JavaScript or-else, for
which the empty string is falsy, so an environment that sets
NEXT_PUBLIC_RPC_URL to the empty string still yields the fallback
literal, not the set value. -/
theorem C6_counterexample :
    ¬ (∀ (env : Env) (v : String), env.NEXT_PUBLIC_RPC_URL = some v →
        (LAZORKIT_CONFIG env).rpcUrl = v) := by
  intro hclaim
  have hv := hclaim
    { NEXT_PUBLIC_RPC_URL := some (""), NEXT_PUBLIC_PORTAL_URL := none,
      NEXT_PUBLIC_PAYMASTER_URL := none } ("") rfl
  simp [LAZORKIT_CONFIG, jsOr] at hv

/-- C6 (amended): each configuration field equals its environment
variable when that variable is set to a non-empty string, and otherwise
(unset, or set to the empty string, both falsy in JavaScript) equals the
documented fallback literal. -/
theorem C6_amended_config (env : Env) :
    (∀ v, v ≠ "" → env.NEXT_PUBLIC_RPC_URL = some v → (LAZORKIT_CONFIG env).rpcUrl = v) ∧
    ((env.NEXT_PUBLIC_RPC_URL = none ∨ env.NEXT_PUBLIC_RPC_URL = some ("")) →
      (LAZORKIT_CONFIG env).rpcUrl = "https://api.devnet.solana.com") ∧
    (∀ v, v ≠ "" → env.NEXT_PUBLIC_PORTAL_URL = some v →
      (LAZORKIT_CONFIG env).portalUrl = v) ∧
    ((env.NEXT_PUBLIC_PORTAL_URL = none ∨ env.NEXT_PUBLIC_PORTAL_URL = some ("")) →
      (LAZORKIT_CONFIG env).portalUrl = "https://portal.lazor.sh") ∧
    (∀ v, v ≠ "" → env.NEXT_PUBLIC_PAYMASTER_URL = some v →
      (LAZORKIT_CONFIG env).paymasterConfig.paymasterUrl = v) ∧
    ((env.NEXT_PUBLIC_PAYMASTER_URL = none ∨ env.NEXT_PUBLIC_PAYMASTER_URL = some ("")) →
      (LAZORKIT_CONFIG env).paymasterConfig.paymasterUrl = "https://kora.devnet.lazorkit.com") := by
  refine ⟨?_, ?_, ?_, ?_, ?_, ?_⟩
  · intro v hv hset
    show jsOr env.NEXT_PUBLIC_RPC_URL _ = v
    rw [hset]; exact jsOr_of_ne v _ hv
  · rintro (hset | hset) <;> simp [LAZORKIT_CONFIG, hset, jsOr]
  · intro v hv hset
    show jsOr env.NEXT_PUBLIC_PORTAL_URL _ = v
    rw [hset]; exact jsOr_of_ne v _ hv
  · rintro (hset | hset) <;> simp [LAZORKIT_CONFIG, hset, jsOr]
  · intro v hv hset
    show jsOr env.NEXT_PUBLIC_PAYMASTER_URL _ = v
    rw [hset]; exact jsOr_of_ne v _ hv
  · rintro (hset | hset) <;> simp [LAZORKIT_CONFIG, hset, jsOr]

/-- C6 witness: a concrete environment, one variable set non-empty. -/
theorem C6_witness :
    (LAZORKIT_CONFIG { NEXT_PUBLIC_RPC_URL := some ("http://localhost:8899"), NEXT_PUBLIC_PORTAL_URL := none, NEXT_PUBLIC_PAYMASTER_URL := some ("") }).rpcUrl = "http://localhost:8899" :=
  (C6_amended_config
    { NEXT_PUBLIC_RPC_URL := some ("http://localhost:8899"), NEXT_PUBLIC_PORTAL_URL := none, NEXT_PUBLIC_PAYMASTER_URL := some ("") }).1
    ("http://localhost:8899") (by decide) rfl

/-- C7: every invocation of the handler performs at most one SDK send
(no retry, re-submission or polling), and when the send happens the final
status reflects that single call's outcome. -/
theorem C7_single_send (publicKey : Option Pubkey) (connection : Bool)
    (pp : String → Except String Pubkey) (send : SendTransactionArgs → JSResult String)
    (r a : String) (st : TransferFormState) :
    (handleTransfer publicKey connection pp send r a).countP isSendEvent ≤ 1 ∧
    (∀ args, Event.sdkSend args ∈ handleTransfer publicKey connection pp send r a →
      (runEvents st (handleTransfer publicKey connection pp send r a)).status =
        (match send args with
         | JSResult.ok s => "Success! Transaction: " ++ s
         | JSResult.err m => "Error: " ++ m)) := by
  cases publicKey with
  | none =>
    rw [handleTransfer_noWallet]
    exact ⟨by simp [List.countP_cons, isSendEvent], by intro args hmem; simp at hmem⟩
  | some fromPk =>
    cases connection with
    | false =>
      rw [handleTransfer_noConnection]
      exact ⟨by simp [List.countP_cons, isSendEvent], by intro args hmem; simp at hmem⟩
    | true =>
      cases hp : pp r with
      | error msg =>
        rw [handleTransfer_invalidRecipient fromPk pp send r a msg hp]
        exact ⟨by simp [List.countP_cons, isSendEvent], by intro args hmem; simp at hmem⟩
      | ok toPk =>
        cases hs : send (mkSendArgs fromPk toPk a) with
        | ok sig =>
          rw [handleTransfer_sendOk fromPk toPk pp send r a sig hp hs]
          refine ⟨by simp [List.countP_cons, isSendEvent], ?_⟩
          intro args hmem
          simp at hmem
          subst hmem
          rw [hs]
          rfl
        | err msg =>
          rw [handleTransfer_sendErr fromPk toPk pp send r a msg hp hs]
          refine ⟨by simp [List.countP_cons, isSendEvent], ?_⟩
          intro args hmem
          simp at hmem
          subst hmem
          rw [hs]
          rfl

/-- C8: once past the connected-wallet guard, the handler first sets
loading to true, last sets it to false, and never terminates with the
loading flag left true. -/
theorem C8_loading_lifecycle (fromPk : Pubkey)
    (pp : String → Except String Pubkey) (send : SendTransactionArgs → JSResult String)
    (r a : String) (st : TransferFormState) :
    (handleTransfer (some fromPk) true pp send r a).head? = some (Event.setLoading true) ∧
    (handleTransfer (some fromPk) true pp send r a).getLast? = some (Event.setLoading false) ∧
    (runEvents st (handleTransfer (some fromPk) true pp send r a)).loading = false := by
  cases hp : pp r with
  | error msg =>
    rw [handleTransfer_invalidRecipient fromPk pp send r a msg hp]
    exact ⟨rfl, rfl, rfl⟩
  | ok toPk =>
    cases hs : send (mkSendArgs fromPk toPk a) with
    | ok sig =>
      rw [handleTransfer_sendOk fromPk toPk pp send r a sig hp hs]
      exact ⟨rfl, rfl, rfl⟩
    | err msg =>
      rw [handleTransfer_sendErr fromPk toPk pp send r a msg hp hs]
      exact ⟨rfl, rfl, rfl⟩

/-- C9: the amount is never validated locally: with a connected wallet
and a recipient the PublicKey constructor accepts, the non-numeric amount
"abc" (whose parseFloat is NaN) still reaches the SDK as the lamports
value of the transfer instruction, and the send button's disabled
condition requires only that the two fields be non-empty. -/
theorem C9_no_amount_validation :
    jsParseFloat ("abc") = JSNum.nan ∧
    Event.sdkSend (mkSendArgs (Pubkey.mk "me") (Pubkey.mk "you") ("abc")) ∈
      handleTransfer (some (Pubkey.mk "me")) true (fun _ => Except.ok (Pubkey.mk "you"))
        (fun _ => JSResult.ok ("txSig")) ("someDest") ("abc") ∧
    (mkSendArgs (Pubkey.mk "me") (Pubkey.mk "you") ("abc")).transaction.instructions =
      [{ fromPubkey := Pubkey.mk "me", toPubkey := Pubkey.mk "you", lamports := JSNum.nan }] ∧
    (∀ st : TransferFormState,
      buttonDisabled st = (st.loading || st.recipient == "" || st.amount == "")) := by
  refine ⟨rfl, ?_, rfl, fun st => rfl⟩
  rw [handleTransfer_sendOk (Pubkey.mk "me") (Pubkey.mk "you") _ _ ("someDest") ("abc")
    ("txSig") rfl rfl]
  simp

/-- C10: a throwing disconnect call is swallowed by handleDisconnect — the
error state is left unchanged and nothing is shown — while a normally
returning disconnect clears the error state to null. -/
theorem C10_disconnect_errors_swallowed (e : Option String) (m : String) :
    handleDisconnect (JSResult.err m) e = e ∧ handleDisconnect (JSResult.ok ()) e = none :=
  ⟨rfl, rfl⟩

end LazorkitDemo
